import Mathlib

/-!
Verification of the search-and-recommendation core of the AI-Shopping-Cart
repository (`search.py` + `validation.py`), as a shallow embedding.

Modelling conventions:
* Python `str` values are embedded as `List Char`; `str.lower`, `str.strip`,
  `str.split()` (no separator) and the substring operator `in` are modelled
  by `pyLower`, `pyStrip`, `pySplitWs` and `pyContains`.
* Python floats are embedded as exact rationals (`ℚ`).
* The database session is embedded as an explicit `DB` record holding the
  rows of the `products`, `product_embeddings` and `activity` tables; each
  SQLAlchemy query in the source becomes the corresponding list operation.
* `sklearn.metrics.pairwise.cosine_similarity` and the float square root
  (`** 0.5`) are external numeric routines; the functions that call them
  take them as explicit parameters (`cosSim`, `sqrtq`).
* Timestamps are embedded by the age in whole days of each activity row at
  query time (`daysOld`), which is the only way `search.py` consumes them
  (`datetime.utcnow() - timestamp`).
-/

namespace AISC

/-! ### Python string primitives -/

/-- Python `str.lower()` on a character-list string. -/
def pyLower (s : List Char) : List Char := s.map Char.toLower

/-- Python `str.strip()`: drop leading and trailing whitespace. -/
def pyStrip (s : List Char) : List Char :=
  ((s.dropWhile Char.isWhitespace).reverse.dropWhile Char.isWhitespace).reverse

/-- Helper for `pySplitWs`: accumulates the current (reversed) token. -/
def pySplitWsGo (cur : List Char) : List Char → List (List Char)
  | [] => if cur.isEmpty then [] else [cur.reverse]
  | c :: cs =>
    if c.isWhitespace then
      if cur.isEmpty then pySplitWsGo [] cs else cur.reverse :: pySplitWsGo [] cs
    else
      pySplitWsGo (c :: cur) cs

/-- Python `str.split()` with no separator: split on runs of whitespace,
discarding empty pieces. -/
def pySplitWs (s : List Char) : List (List Char) := pySplitWsGo [] s

/-- Python's substring operator `needle in hay`. -/
def pyContains (needle : List Char) : List Char → Bool
  | [] => needle.isEmpty
  | c :: t => needle.isPrefixOf (c :: t) || pyContains needle t

/-! ### `validation.py` -/

/-- The `prohibited_keywords` set of `validation.py` (a Python `set`;
membership is only ever used through `any(keyword in s for keyword in ...)`,
so the duplicate entries of the source literal are immaterial). -/
def prohibited_keywords : List (List Char) :=
  ["cocaine".data, "heroin".data, "methamphetamine".data, "ecstasy".data,
   "lsd".data, "fentanyl".data, "amphetamine".data, "opium".data, "crack".data,
   "pistol".data, "handgun".data, "firearm".data, "grenade".data,
   "explosives".data, "dynamite".data, "bomb".data, "incendiary".data,
   "c4".data, "detonator".data, "silencer".data, "smg".data, "rifle".data,
   "ak47".data, "uzi".data, "glock".data, "sniper".data, "shotgun".data,
   "machete".data, "switchblade".data, "dirk".data, "butterfly".data,
   "knuckleduster".data, "brass".data, "cyanide".data, "arsenic".data,
   "ricin".data, "strychnine".data, "sarin".data, "mustard".data,
   "nerve".data, "counterfeit".data, "fake".data, "forged".data,
   "stolen".data, "skimmer".data, "trafficking".data, "contraband".data,
   "cartel".data, "narcotics".data, "cannabis".data, "marijuana".data,
   "weed".data, "hashish".data, "opiate".data, "barbiturate".data,
   "meth".data, "lab".data, "drug".data, "blackmail".data, "extortion".data,
   "bribery".data, "espionage".data, "spy".data, "malware".data,
   "virus".data, "cyberattack".data, "ransomware".data, "keylogger".data,
   "trojan".data, "worm".data, "sexting".data, "pornography".data,
   "revenge".data, "voyeurism".data, "adoption".data, "organ".data,
   "body".data, "human".data, "abuse".data, "child".data, "underage".data,
   "sex".data, "pedo".data, "incest".data, "rape".data, "hitman".data,
   "assassin".data, "torture".data, "execution".data, "contract".data,
   "money".data, "laundering".data, "paraphernalia".data, "needle".data,
   "syringe".data, "bong".data, "pipe".data, "oxycodone".data,
   "hydrocodone".data, "vicodin".data, "percocet".data, "adderall".data,
   "xanax".data, "revolver".data, "slave".data, "dmt".data, "molotov".data]

/-- One entry of the `product_array` that `validate_input` returns:
`[validated_term, original_term, status]`. -/
structure ValidatedTerm where
  validated : List Char
  original : List Char
  status : Nat
deriving DecidableEq, Repr

/-- `any(keyword in input_str.lower() for keyword in prohibited_keywords)`. -/
def containsProhibited (s : List Char) : Bool :=
  prohibited_keywords.any fun kw => pyContains kw (pyLower s)

/-- `validation.py`, `validate_input` in `simple_mode` (the mode
`search_products` uses, being its `simple_mode=True` default).  The
`location` and `db_connection` parameters are unused on this path and are
omitted; the complex mode (spell checker, SQL category lookup) is reached
by no modelled caller. -/
def validate_input (input_str : List Char) : Nat × List ValidatedTerm :=
  if input_str.isEmpty || (pyStrip input_str).isEmpty then
    (0, [])
  else
    let terms := pySplitWs (pyStrip (pyLower input_str))
    if containsProhibited input_str then
      (1, [⟨[], input_str, 2⟩])
    else
      (terms.length, terms.map fun t => ⟨t, t, 0⟩)

/-! ### Data model (`models.py`, as consumed by `search.py`) -/

/-- A row of the `products` table, with the attributes `search.py` reads
(`product_id`, `title`, `tags`, `category`, `description`, `brand`,
`price`, `was_price`, `discount`, `popularity`, `ratings`).  Nullable text
columns are `Option`s; numeric columns are exact rationals. -/
structure Product where
  product_id : Nat
  title : Option (List Char)
  tags : Option (List Char)
  category : Option (List Char)
  description : Option (List Char)
  brand : Option (List Char)
  price : ℚ
  was_price : ℚ
  discount : ℤ
  popularity : ℚ
  ratings : ℚ
deriving DecidableEq, Repr

/-- A row of the `product_embeddings` table: `np.frombuffer(e.embedding)`
is embedded as the rational vector `embedding`; `dimensions` is the stored
dimension column that `search.py` groups and filters on. -/
structure ProductEmbedding where
  product_id : Nat
  embedding : List ℚ
  dimensions : Nat
deriving DecidableEq, Repr

/-- The `action` Enum of the `activity` table. -/
inductive ActionKind where
  | viewed
  | added_to_cart
  | purchased
deriving DecidableEq, Repr

/-- A row of the `activity` table.  The timestamp is embedded as `daysOld`,
the age `(datetime.utcnow() - timestamp).days` of the row at query time,
which is the only form in which `search.py` consumes it. -/
structure Activity where
  user_id : Nat
  product_id : Option Nat
  action : ActionKind
  daysOld : Nat
deriving DecidableEq, Repr

/-- The visible database state behind the module-level `session`. -/
structure DB where
  products : List Product
  embeddings : List ProductEmbedding
  activities : List Activity
deriving DecidableEq, Repr

/-- One entry of the result dictionaries that `search_products`,
`suggest_products_for_item` and `get_trending_products` return. -/
structure SearchResult where
  product_id : Nat
  title : Option (List Char)
  category : Option (List Char)
  price : ℚ
  was_price : ℚ
  discount : ℤ
  similarity_score : ℚ
deriving DecidableEq, Repr

/-- Shape one `(product, score)` pair into a result dictionary. -/
def mkResult (p : Product) (score : ℚ) : SearchResult :=
  ⟨p.product_id, p.title, p.category, p.price, p.was_price, p.discount, score⟩

/-- Python truthiness of an optional integer (`if user_id:`,
`if activity.product_id:`): `None` and `0` are falsy. -/
def optTruthy : Option Nat → Bool
  | none => false
  | some n => n != 0

/-! ### `search.py`: query embedding and similarity scoring -/

/-- Deterministic stand-in for Python's string hash. -/
def strHash (s : List Char) : Nat :=
  s.foldl (fun h c => (h * 131 + c.toNat) % 2 ^ 32) 7

/-- One step of a linear congruential generator modulo `2 ^ 31`. -/
def lcgNext (s : Nat) : Nat := (1103515245 * s + 12345) % 2 ^ 31

/-- A stream of `n` pseudo-random rationals in `[0, 1)` from seed `s`. -/
def lcgStream : Nat → Nat → List ℚ
  | _, 0 => []
  | s, n + 1 =>
    let s' := lcgNext s
    ((s' : ℚ) / 2 ^ 31) :: lcgStream s' n

/-- `search.py`, `generate_query_embedding`: the source seeds NumPy's
global PRNG with `hash(query) % 2**32`, draws `dimensions` uniform values
and divides by the Euclidean norm.  The Mersenne-Twister draw and Python's
string hash are modelled by a deterministic LCG and polynomial hash; the
final division by the (irrational) norm is omitted in the rational model.
What the pipeline relies on is preserved exactly: the vector is a pure
function of `(query, dimensions)` and has length `dimensions`. -/
def generate_query_embedding (query : List Char) (dimensions : Nat) : List ℚ :=
  lcgStream (strHash query % 2 ^ 32) dimensions

/-- The blended score of `calculate_similarity_scores` (`search.py`
lines 105-109): `0.6 * sim + 0.2 * (popularity / 1000) + 0.2 * (ratings / 5)`. -/
def combinedScore (similarity : ℚ) (p : Product) : ℚ :=
  0.6 * similarity + 0.2 * (p.popularity / 1000) + 0.2 * (p.ratings / 5)

/-- The spec's `normalize(x, lo, hi)` (§4.2), stated from the spec's words
for comparison with the code's scoring: clamp the input to `[lo, hi]` and
map it linearly onto `[0, 1]`; a degenerate range yields `0`. -/
def specNormalize (x lo hi : ℚ) : ℚ :=
  if lo = hi then 0 else (min (max x lo) hi - lo) / (hi - lo)

/-- `search.py`, `calculate_similarity_scores`.  `cosSim` stands for
sklearn's `cosine_similarity` row computation, an external numeric
routine passed in as a parameter. -/
def calculate_similarity_scores (cosSim : List ℚ → List ℚ → ℚ)
    (query : List Char) (embeddings : List ProductEmbedding)
    (products : List Product) : List (Product × ℚ) :=
  match embeddings with
  | [] => []
  | e0 :: _ =>
    let embedding_size := e0.dimensions
    let query_vector := generate_query_embedding query embedding_size
    let similarity_scores := embeddings.map fun e => cosSim query_vector e.embedding
    (embeddings.zip similarity_scores).filterMap fun es =>
      (products.find? fun p => p.product_id == es.1.product_id).map fun p =>
        (p, combinedScore es.2 p)

/-! ### `search.py`: the search pipeline -/

/-- `search_terms = [item[0] for item in product_array if item[2] == 0]`. -/
def usableSearchTerms (query : List Char) : List (List Char) :=
  ((validate_input query).2.filter fun item => item.status == 0).map
    (·.validated)

/-- SQL `ILIKE '%pat%'` on a nullable column: case-insensitive substring,
false on NULL. -/
def ilike (col : Option (List Char)) (pat : List Char) : Bool :=
  match col with
  | none => false
  | some s => pyContains (pyLower pat) (pyLower s)

/-- The filter chain of `search_products` (price range, brand, rating
floor).  A `brand` of `None` or `""` applies no brand filter (Python
`if brand:`). -/
def filteredProducts (db : DB) (min_price max_price : Option ℚ)
    (brand : Option (List Char)) (min_rating : Option ℚ) : List Product :=
  let q1 := db.products
  let q2 := match min_price with
    | some mp => q1.filter fun p => mp ≤ p.price
    | none => q1
  let q3 := match max_price with
    | some mp => q2.filter fun p => p.price ≤ mp
    | none => q2
  let q4 := match brand with
    | some b => if b.isEmpty then q3 else q3.filter fun p => ilike p.brand b
    | none => q3
  match min_rating with
  | some mr => q4.filter fun p => mr ≤ p.ratings
  | none => q4

/-- `(product.title or '') + ' ' + (product.tags or '') + ' ' +
(product.category or '') + ' ' + (product.description or '')`. -/
def productSearchText (p : Product) : List Char :=
  (p.title.getD []) ++ [' '] ++ (p.tags.getD []) ++ [' '] ++
    (p.category.getD []) ++ [' '] ++ (p.description.getD [])

/-- The term-matching step of `search_products`: keep the filtered products
whose combined text contains some search term (case-insensitively). -/
def matchedProducts (db : DB) (query : List Char) (min_price max_price : Option ℚ)
    (brand : Option (List Char)) (min_rating : Option ℚ) : List Product :=
  (filteredProducts db min_price max_price brand min_rating).filter fun p =>
    (usableSearchTerms query).any fun term =>
      pyContains (pyLower term) (pyLower (productSearchText p))

/-- `ProductEmbedding.product_id.in_(product_ids)` for the matched products. -/
def matchedEmbeddings (db : DB) (query : List Char) (min_price max_price : Option ℚ)
    (brand : Option (List Char)) (min_rating : Option ℚ) : List ProductEmbedding :=
  let product_ids :=
    (matchedProducts db query min_price max_price brand min_rating).map (·.product_id)
  db.embeddings.filter fun e => product_ids.contains e.product_id

/-- Ordering by the stored `dimensions` column
(`all_embeddings.sort(key=attrgetter('dimensions'))`). -/
abbrev dimLE (a b : ProductEmbedding) : Prop := a.dimensions ≤ b.dimensions

instance : IsTotal ProductEmbedding dimLE :=
  ⟨fun a b => Nat.le_total a.dimensions b.dimensions⟩

instance : IsTrans ProductEmbedding dimLE := ⟨fun _ _ _ => Nat.le_trans⟩

/-- Descending order on the second (score) component, as produced by
Python's stable `sort(key=lambda x: x[1], reverse=True)`. -/
abbrev descBySnd {α : Type} (a b : α × ℚ) : Prop := b.2 ≤ a.2

instance {α : Type} : IsTotal (α × ℚ) descBySnd := ⟨fun a b => le_total b.2 a.2⟩

instance {α : Type} : IsTrans (α × ℚ) descBySnd :=
  ⟨fun _ _ _ h h' => le_trans h' h⟩

/-- Helper for `groupRuns`: `d` is the key of the open group, `acc` its
members so far in reverse. -/
def groupRunsGo (d : Nat) (acc : List ProductEmbedding) :
    List ProductEmbedding → List (List ProductEmbedding)
  | [] => [acc.reverse]
  | e :: es =>
    if e.dimensions = d then
      groupRunsGo d (e :: acc) es
    else
      acc.reverse :: groupRunsGo e.dimensions [e] es

/-- `itertools.groupby(·, key=attrgetter('dimensions'))`: maximal runs of
consecutive elements sharing one `dimensions` value. -/
def groupRuns : List ProductEmbedding → List (List ProductEmbedding)
  | [] => []
  | e :: es => groupRunsGo e.dimensions [e] es

/-- The dimension-grouped scoring loop of `search_products` (lines
177-186): sort the embeddings by dimension, group consecutive equal
dimensions, score each group independently and concatenate. -/
def allScoredPairs (cosSim : List ℚ → List ℚ → ℚ) (db : DB) (query : List Char)
    (min_price max_price : Option ℚ) (brand : Option (List Char))
    (min_rating : Option ℚ) : List (Product × ℚ) :=
  (groupRuns (List.insertionSort dimLE
      (matchedEmbeddings db query min_price max_price brand min_rating))).flatMap
    fun g => calculate_similarity_scores cosSim query g
      (matchedProducts db query min_price max_price brand min_rating)

/-- `all_product_scores.sort(key=lambda x: x[1], reverse=True)` (a stable
sort, modelled by insertion sort). -/
def sortedScoredPairs (cosSim : List ℚ → List ℚ → ℚ) (db : DB) (query : List Char)
    (min_price max_price : Option ℚ) (brand : Option (List Char))
    (min_rating : Option ℚ) : List (Product × ℚ) :=
  List.insertionSort descBySnd
    (allScoredPairs cosSim db query min_price max_price brand min_rating)

/-- `round(score, 3)`.  Python rounds floats half-to-even; in the exact
rational model ties are rounded with Mathlib's `round` (half up) — the two
agree away from exact half-thousandths. -/
def round3 (q : ℚ) : ℚ := (round (q * 1000) : ℚ) / 1000

/-- The degraded no-embedding return of `search_products` (lines 162-175). -/
def basicResults (matched : List Product) : List SearchResult :=
  (matched.take 15).map fun p => mkResult p 1

/-- The ranked return of `search_products` (lines 192-203). -/
def rankedResults (pairs : List (Product × ℚ)) : List SearchResult :=
  (pairs.take 15).map fun pr => mkResult pr.1 (round3 pr.2)

/-- `search.py`, `search_products` (with its default `simple_mode=True`). -/
def search_products (cosSim : List ℚ → List ℚ → ℚ) (db : DB) (query : List Char)
    (min_price : Option ℚ := none) (max_price : Option ℚ := none)
    (brand : Option (List Char) := none) (min_rating : Option ℚ := none) :
    List SearchResult :=
  if (usableSearchTerms query).isEmpty then
    []
  else if (matchedProducts db query min_price max_price brand min_rating).isEmpty then
    []
  else if (matchedEmbeddings db query min_price max_price brand min_rating).isEmpty then
    basicResults (matchedProducts db query min_price max_price brand min_rating)
  else
    rankedResults (sortedScoredPairs cosSim db query min_price max_price brand min_rating)

/-! ### `search.py`: activity vectors and recommendations -/

/-- `time_decay = 1.0 / (1.0 + days_old)`. -/
def timeDecay (daysOld : Nat) : ℚ := 1 / (1 + (daysOld : ℚ))

/-- `weight = 1.0  # Simplified weight` — the source assigns the same base
weight to every activity row, regardless of its `action`. -/
def activityBaseWeight (_ : Activity) : ℚ := 1

/-- The amount one activity row adds to its item's entry of the activity
vector: `weight * time_decay`. -/
def activityContribution (a : Activity) : ℚ :=
  activityBaseWeight a * timeDecay a.daysOld

/-- `search.py`, `get_user_activity_vector`, as the total function behind
the returned `defaultdict(float)` (absent keys read as `0`, matching both
`defaultdict` access and the `.get(pid, 0)` call sites). -/
def get_user_activity_vector (db : DB) (user_id : Nat)
    (time_window_days : Nat) : Nat → ℚ := fun pid =>
  ((db.activities.filter fun a =>
      a.user_id == user_id && decide (a.daysOld ≤ time_window_days) &&
        optTruthy a.product_id && a.product_id == some pid).map
    activityContribution).sum

/-- The key set of the same `defaultdict`, in first-insertion order
(Python dict key order). -/
def activityKeys (db : DB) (user_id : Nat) (time_window_days : Nat) :
    List Nat :=
  ((db.activities.filter fun a =>
      a.user_id == user_id && decide (a.daysOld ≤ time_window_days) &&
        optTruthy a.product_id).filterMap (·.product_id)).eraseDups

/-- `search.py`, `get_similar_users`.  `sqrtq` stands for the float square
root (`** 0.5`), an external numeric routine passed in as a parameter.
`SELECT DISTINCT user_id FROM activity` is the deduplicated user-id list;
the final `sorted(..., key=lambda x: x[1], reverse=True)` is Python's
stable descending sort, modelled by insertion sort. -/
def get_similar_users (sqrtq : ℚ → ℚ) (db : DB) (user_id : Nat)
    (min_similarity : ℚ := 0.2) : List (Nat × ℚ) :=
  let target_vector := get_user_activity_vector db user_id 30
  let targetKeys := activityKeys db user_id 30
  let all_users := (db.activities.map (·.user_id)).eraseDups
  let similar_users := all_users.filterMap fun other_id =>
    if other_id ≠ user_id then
      let other_vector := get_user_activity_vector db other_id 30
      let otherKeys := activityKeys db other_id 30
      let common_products := targetKeys.filter fun pid => otherKeys.contains pid
      if common_products.isEmpty then
        none
      else
        let similarity :=
          ((common_products.map fun pid => target_vector pid * other_vector pid).sum) /
            (sqrtq ((targetKeys.map fun pid => target_vector pid ^ 2).sum) *
              sqrtq ((otherKeys.map fun pid => other_vector pid ^ 2).sum))
        if min_similarity ≤ similarity then some (other_id, similarity) else none
    else
      none
  List.insertionSort descBySnd similar_users

/-- The candidate embeddings of `suggest_products_for_item` (lines
214-217): all embeddings of a *different* product with the *same* stored
dimension as the seed's embedding. -/
def otherEmbeddings (db : DB) (item_id : Nat) (cur : ProductEmbedding) :
    List ProductEmbedding :=
  db.embeddings.filter fun e =>
    e.product_id != item_id && e.dimensions == cur.dimensions

/-- `search.py`, `suggest_products_for_item`.  Notes on the embedding:
the source's unused `user_vector` assignment is dropped; `np.argsort`
(whose tie order the source leaves unspecified) is modelled as a stable
ascending sort, then reversed and truncated as in
`np.argsort(final_scores)[::-1][:5]`; `session.query(Product).get(pid)` is
the primary-key lookup `find?`. -/
def suggest_products_for_item (cosSim : List ℚ → List ℚ → ℚ) (sqrtq : ℚ → ℚ)
    (db : DB) (item_id : Nat) (user_id : Option Nat := none) : List SearchResult :=
  match db.embeddings.find? fun e => e.product_id == item_id with
  | none => []
  | some current_embedding =>
    let current_vector := current_embedding.embedding
    let other_embeddings := otherEmbeddings db item_id current_embedding
    if other_embeddings.isEmpty then
      []
    else
      let other_product_ids := other_embeddings.map (·.product_id)
      let content_scores :=
        other_embeddings.map fun e => cosSim current_vector e.embedding
      let final_scores :=
        if optTruthy user_id then
          let similar_users := get_similar_users sqrtq db (user_id.getD 0)
          let collab_scores := other_product_ids.map fun pid =>
            ((similar_users.take 5).map fun os =>
              get_user_activity_vector db os.1 30 pid * os.2).sum
          let mx := (collab_scores.max?).getD 0
          let collab_scores :=
            if 0 < mx then collab_scores.map (· / mx) else collab_scores
          (content_scores.zip collab_scores).map fun ck =>
            0.6 * ck.1 + 0.4 * ck.2
        else
          content_scores
      let top_indices :=
        (List.insertionSort
            (fun i j : Nat => final_scores.getD i 0 ≤ final_scores.getD j 0)
            (List.range other_embeddings.length)).reverse.take 5
      top_indices.filterMap fun i =>
        (db.products.find? fun p => p.product_id == other_product_ids.getD i 0).map
          fun p => mkResult p (round3 (final_scores.getD i 0))

/-- A tiny concrete database used to exercise the recommendation pipeline:
two embedded products of dimension 2, and two users who both interacted
with product 5 today. -/
def dbC9 : DB :=
  ⟨[⟨2, some "b".data, none, none, none, none, 3, 4, 0, 10, 1⟩],
   [⟨1, [1, 0], 2⟩, ⟨2, [0, 1], 2⟩],
   [⟨1, some 5, ActionKind.viewed, 0⟩, ⟨2, some 5, ActionKind.viewed, 0⟩]⟩

/-! ### Basic lemmas about the embedding -/

theorem lcgStream_length (s n : Nat) : (lcgStream s n).length = n := by
  induction n generalizing s with
  | zero => rfl
  | succ n ih => simp [lcgStream, ih]

theorem generate_query_embedding_length (q : List Char) (d : Nat) :
    (generate_query_embedding q d).length = d :=
  lcgStream_length _ _

/-! ### C1: the blended score against the spec's normalize -/

/-- **C1.** For every scored candidate item (whose catalog attributes are in
the data model's ranges, popularity in `[0, 1000]` and rating in `[0, 5]`),
the combined score of `calculate_similarity_scores` equals
`0.6 * cosine + 0.2 * normalize(popularity, 0, 1000) +
0.2 * normalize(rating, 0, 5)` with the spec's clamping `normalize`; and at
popularity `500`, rating `2.5`, cosine similarity `0.8` the combined score
is exactly `0.68`. -/
theorem combinedScore_matches_spec (p : Product) (sim : ℚ)
    (hp0 : 0 ≤ p.popularity) (hp1 : p.popularity ≤ 1000)
    (hr0 : 0 ≤ p.ratings) (hr1 : p.ratings ≤ 5) :
    combinedScore sim p =
      0.6 * sim + 0.2 * specNormalize p.popularity 0 1000 +
        0.2 * specNormalize p.ratings 0 5 ∧
    (p.popularity = 500 → p.ratings = 2.5 → sim = 0.8 →
      combinedScore sim p = 0.68) := by
  constructor
  · unfold combinedScore specNormalize
    rw [if_neg (by norm_num), if_neg (by norm_num),
      max_eq_left hp0, min_eq_left hp1, max_eq_left hr0, min_eq_left hr1]
    ring
  · intro h1 h2 h3
    unfold combinedScore
    rw [h1, h2, h3]
    norm_num

theorem combinedScore_matches_spec_witness :
    combinedScore 0.8 ⟨0, none, none, none, none, none, 0, 0, 0, 500, 2.5⟩ =
        0.6 * 0.8 + 0.2 * specNormalize 500 0 1000 + 0.2 * specNormalize 2.5 0 5 ∧
    combinedScore 0.8 ⟨0, none, none, none, none, none, 0, 0, 0, 500, 2.5⟩ = 0.68 := by
  have h := combinedScore_matches_spec
    ⟨0, none, none, none, none, none, 0, 0, 0, 500, 2.5⟩ 0.8
    (by norm_num) (by norm_num) (by norm_num) (by norm_num)
  exact ⟨h.1, h.2 rfl rfl rfl⟩

/-! ### C5: activity weights are *not* ordered by action kind -/

/-- **C5, counterexample.**  The claim asserts that at identical recency a
purchased event contributes strictly more weight than a viewed event.  In
the code (`weight = 1.0  # Simplified weight`) the base weight ignores the
action kind: a purchase and a view of the same item at age `0` days
contribute the same per-item total, so the strict inequality fails. -/
theorem activity_weight_ignores_action :
    get_user_activity_vector
        ⟨[], [], [⟨1, some 10, ActionKind.purchased, 0⟩,
                  ⟨2, some 10, ActionKind.viewed, 0⟩]⟩ 1 30 10 =
      get_user_activity_vector
        ⟨[], [], [⟨1, some 10, ActionKind.purchased, 0⟩,
                  ⟨2, some 10, ActionKind.viewed, 0⟩]⟩ 2 30 10 ∧
    ¬ get_user_activity_vector
        ⟨[], [], [⟨1, some 10, ActionKind.purchased, 0⟩,
                  ⟨2, some 10, ActionKind.viewed, 0⟩]⟩ 2 30 10 <
        get_user_activity_vector
          ⟨[], [], [⟨1, some 10, ActionKind.purchased, 0⟩,
                    ⟨2, some 10, ActionKind.viewed, 0⟩]⟩ 1 30 10 ∧
    activityBaseWeight ⟨1, some 10, ActionKind.purchased, 0⟩ =
      activityBaseWeight ⟨2, some 10, ActionKind.viewed, 0⟩ := by
  refine ⟨?_, ?_, rfl⟩ <;>
  · simp only [get_user_activity_vector, List.filter_cons, List.filter_nil]
    norm_num [optTruthy, activityContribution, activityBaseWeight, timeDecay]

/-- **C5, amended.**  The code gives every activity event the same base
weight `1.0` regardless of action kind, so for identical recency a
purchased event contributes exactly the same weight as a viewed event for
the same item (no strict ordering of action kinds is implemented). -/
theorem activity_weight_uniform (a b : Activity) (h : a.daysOld = b.daysOld) :
    activityBaseWeight a = 1 ∧ activityBaseWeight b = 1 ∧
    activityContribution a = activityContribution b := by
  unfold activityBaseWeight activityContribution timeDecay
  rw [h]
  exact ⟨rfl, rfl, rfl⟩

theorem activity_weight_uniform_witness :
    activityBaseWeight ⟨1, some 10, ActionKind.purchased, 0⟩ = 1 ∧
    activityBaseWeight ⟨2, some 10, ActionKind.viewed, 0⟩ = 1 ∧
    activityContribution ⟨1, some 10, ActionKind.purchased, 0⟩ =
      activityContribution ⟨2, some 10, ActionKind.viewed, 0⟩ :=
  activity_weight_uniform ⟨1, some 10, ActionKind.purchased, 0⟩
    ⟨2, some 10, ActionKind.viewed, 0⟩ rfl

/-! ### C8: recommendations for a seed item without an embedding -/

/-- **C8.** If the seed item id has no stored embedding, the
recommendation function returns the empty list (for any optional user id)
instead of raising. -/
theorem suggest_without_embedding_is_empty (cosSim : List ℚ → List ℚ → ℚ)
    (sqrtq : ℚ → ℚ) (db : DB) (item_id : Nat) (user_id : Option Nat)
    (h : (db.embeddings.find? fun e => e.product_id == item_id) = none) :
    suggest_products_for_item cosSim sqrtq db item_id user_id = [] := by
  unfold suggest_products_for_item
  rw [h]

theorem suggest_without_embedding_is_empty_witness :
    suggest_products_for_item (fun _ _ => 0) (fun q => q)
        ⟨[⟨1, some "a".data, none, none, none, none, 1, 1, 0, 10, 1⟩], [], []⟩
        1 none = [] ∧
    suggest_products_for_item (fun _ _ => 0) (fun q => q)
        ⟨[⟨1, some "a".data, none, none, none, none, 1, 1, 0, 10, 1⟩], [], []⟩
        1 (some 7) = [] :=
  ⟨suggest_without_embedding_is_empty (fun _ _ => 0) (fun q => q)
      ⟨[⟨1, some "a".data, none, none, none, none, 1, 1, 0, 10, 1⟩], [], []⟩
      1 none rfl,
   suggest_without_embedding_is_empty (fun _ _ => 0) (fun q => q)
      ⟨[⟨1, some "a".data, none, none, none, none, 1, 1, 0, 10, 1⟩], [], []⟩
      1 (some 7) rfl⟩

/-! ### C4: determinism of the query embedding and of search -/

/-- **C4.** The derived query vector is a deterministic function of the
query text (the source seeds its PRNG with `hash(query) % 2**32`, so the
draw depends on nothing else) and has exactly the requested dimension;
consequently two `search_products` calls with the same query against the
same catalog, embedding and similarity-oracle state return identical
ordered output, including identical rounded scores. -/
theorem search_deterministic (cosSim : List ℚ → List ℚ → ℚ) (db : DB)
    (q₁ q₂ : List Char) (d : Nat) (min_price max_price : Option ℚ)
    (brand : Option (List Char)) (min_rating : Option ℚ) (h : q₁ = q₂) :
    generate_query_embedding q₁ d = generate_query_embedding q₂ d ∧
    (generate_query_embedding q₁ d).length = d ∧
    search_products cosSim db q₁ min_price max_price brand min_rating =
      search_products cosSim db q₂ min_price max_price brand min_rating := by
  subst h
  exact ⟨rfl, generate_query_embedding_length q₁ d, rfl⟩

theorem search_deterministic_witness :
    generate_query_embedding "red shoes".data 3 =
        generate_query_embedding "red shoes".data 3 ∧
    (generate_query_embedding "red shoes".data 3).length = 3 ∧
    search_products (fun _ _ => 0) ⟨[], [], []⟩ "red shoes".data
        none none none none =
      search_products (fun _ _ => 0) ⟨[], [], []⟩ "red shoes".data
        none none none none :=
  search_deterministic (fun _ _ => 0) ⟨[], [], []⟩ "red shoes".data
    "red shoes".data 3 none none none none rfl

/-! ### C3: queries with no usable terms return the empty list -/

/-- **C3.** Whenever validation leaves no usable (status-0) search term —
the empty query, a whitespace-only query, or a query whose text is caught
by the prohibited-keyword screen — `search_products` returns `[]` rather
than raising. -/
theorem search_no_usable_terms (cosSim : List ℚ → List ℚ → ℚ) (db : DB)
    (query : List Char) (min_price max_price : Option ℚ)
    (brand : Option (List Char)) (min_rating : Option ℚ)
    (h : usableSearchTerms query = []) :
    search_products cosSim db query min_price max_price brand min_rating = [] := by
  unfold search_products
  rw [h]
  rfl

theorem search_no_usable_terms_witness :
    search_products (fun _ _ => 0)
        ⟨[⟨1, some "red shoes".data, none, none, none, none, 1, 1, 0, 10, 1⟩],
          [], []⟩ "".data none none none none = [] ∧
    search_products (fun _ _ => 0)
        ⟨[⟨1, some "red shoes".data, none, none, none, none, 1, 1, 0, 10, 1⟩],
          [], []⟩ "   ".data none none none none = [] ∧
    search_products (fun _ _ => 0)
        ⟨[⟨1, some "red shoes".data, none, none, none, none, 1, 1, 0, 10, 1⟩],
          [], []⟩ "cocaine".data none none none none = [] :=
  ⟨search_no_usable_terms (fun _ _ => 0)
      ⟨[⟨1, some "red shoes".data, none, none, none, none, 1, 1, 0, 10, 1⟩],
        [], []⟩ "".data none none none none (by decide),
   search_no_usable_terms (fun _ _ => 0)
      ⟨[⟨1, some "red shoes".data, none, none, none, none, 1, 1, 0, 10, 1⟩],
        [], []⟩ "   ".data none none none none (by decide),
   search_no_usable_terms (fun _ _ => 0)
      ⟨[⟨1, some "red shoes".data, none, none, none, none, 1, 1, 0, 10, 1⟩],
        [], []⟩ "cocaine".data none none none none (by decide)⟩

/-! ### C6: the degraded path when no matched item has an embedding -/

/-- **C6.** If the query leaves usable terms and matches catalog items, but
none of the matched items has a stored embedding, `search_products` returns
exactly the first 15 matched items in original fetch order, each with the
default score `1.0`, and does not raise. -/
theorem search_degraded_without_embeddings (cosSim : List ℚ → List ℚ → ℚ)
    (db : DB) (query : List Char) (min_price max_price : Option ℚ)
    (brand : Option (List Char)) (min_rating : Option ℚ)
    (hterms : (usableSearchTerms query).isEmpty = false)
    (hmatch : (matchedProducts db query min_price max_price brand min_rating).isEmpty = false)
    (hemb : (matchedEmbeddings db query min_price max_price brand min_rating).isEmpty = true) :
    search_products cosSim db query min_price max_price brand min_rating =
      ((matchedProducts db query min_price max_price brand min_rating).take 15).map
        (fun p => mkResult p 1) ∧
    (search_products cosSim db query min_price max_price brand min_rating).length ≤ 15 ∧
    ∀ r ∈ search_products cosSim db query min_price max_price brand min_rating,
      r.similarity_score = 1 := by
  have h : search_products cosSim db query min_price max_price brand min_rating =
      ((matchedProducts db query min_price max_price brand min_rating).take 15).map
        (fun p => mkResult p 1) := by
    simp only [search_products, hterms, hmatch, hemb, Bool.false_eq_true,
      if_false, if_true, basicResults]
  refine ⟨h, ?_, ?_⟩
  · rw [h, List.length_map]
    exact le_trans (List.length_take_le 15 _) (le_refl 15)
  · intro r hr
    rw [h] at hr
    obtain ⟨p, _, rfl⟩ := List.mem_map.mp hr
    rfl

theorem search_degraded_without_embeddings_witness :
    search_products (fun _ _ => 0)
        ⟨[⟨1, some "red shoes".data, none, none, none, none, 1, 1, 0, 10, 1⟩],
          [], []⟩ "shoes".data none none none none =
      ((matchedProducts
          ⟨[⟨1, some "red shoes".data, none, none, none, none, 1, 1, 0, 10, 1⟩],
            [], []⟩ "shoes".data none none none none).take 15).map
        (fun p => mkResult p 1) ∧
    (search_products (fun _ _ => 0)
        ⟨[⟨1, some "red shoes".data, none, none, none, none, 1, 1, 0, 10, 1⟩],
          [], []⟩ "shoes".data none none none none).length ≤ 15 ∧
    ∀ r ∈ search_products (fun _ _ => 0)
        ⟨[⟨1, some "red shoes".data, none, none, none, none, 1, 1, 0, 10, 1⟩],
          [], []⟩ "shoes".data none none none none,
      r.similarity_score = 1 :=
  search_degraded_without_embeddings (fun _ _ => 0)
    ⟨[⟨1, some "red shoes".data, none, none, none, none, 1, 1, 0, 10, 1⟩],
      [], []⟩ "shoes".data none none none none
    (by decide) (by decide) (by decide)

/-! ### C10: exact behaviour of simple-mode validation -/

theorem isWhitespace_toLower {c : Char} (h : c.isWhitespace = true) :
    (c.toLower).isWhitespace = true := by
  have hc : c = ' ' ∨ c = '\t' ∨ c = '\r' ∨ c = '\n' := by
    simp [Char.isWhitespace] at h
    rcases h with ((h | h) | h) | h
    exacts [Or.inl h, Or.inr (Or.inl h), Or.inr (Or.inr (Or.inl h)),
      Or.inr (Or.inr (Or.inr h))]
  rcases hc with rfl | rfl | rfl | rfl <;> decide

theorem pyContains_subset {n h : List Char} (hc : pyContains n h = true) :
    n ⊆ h := by
  induction h with
  | nil =>
    rw [pyContains, List.isEmpty_iff] at hc
    subst hc
    exact List.nil_subset _
  | cons c t ih =>
    rw [pyContains, Bool.or_eq_true] at hc
    rcases hc with hp | hrest
    · exact (List.isPrefixOf_iff_prefix.mp hp).subset
    · exact (ih hrest).trans (List.subset_cons_self c t)

theorem prohibited_keywords_nonblank :
    ∀ kw ∈ prohibited_keywords, kw.any (fun c => !c.isWhitespace) = true := by
  decide

theorem all_ws_of_pyStrip_eq_nil {s : List Char} (h : pyStrip s = []) :
    ∀ c ∈ s, c.isWhitespace = true := by
  unfold pyStrip at h
  rw [List.reverse_eq_nil_iff, List.dropWhile_eq_nil_iff] at h
  intro c hc
  rw [← List.takeWhile_append_dropWhile (p := Char.isWhitespace) (l := s)] at hc
  rcases List.mem_append.mp hc with h1 | h1
  · exact List.mem_takeWhile_imp h1
  · exact h c (List.mem_reverse.mpr h1)

theorem pyStrip_of_all_ws {s : List Char}
    (h : ∀ c ∈ s, c.isWhitespace = true) : pyStrip s = [] := by
  unfold pyStrip
  rw [List.dropWhile_eq_nil_iff.mpr h]
  rfl

theorem containsProhibited_strip_ne_nil {s : List Char}
    (h : containsProhibited s = true) : pyStrip s ≠ [] := by
  unfold containsProhibited at h
  obtain ⟨kw, hkw, hc⟩ := List.any_eq_true.mp h
  obtain ⟨c, hcm, hcw⟩ := List.any_eq_true.mp (prohibited_keywords_nonblank kw hkw)
  have hmem : c ∈ pyLower s := pyContains_subset hc hcm
  obtain ⟨c₀, hc₀, rfl⟩ := List.mem_map.mp hmem
  intro hstrip
  rw [isWhitespace_toLower (all_ws_of_pyStrip_eq_nil hstrip c₀ hc₀)] at hcw
  simp at hcw

/-- **C10.** In simple validation mode the prohibited screen is a substring
test on the whole lowercased input, not a per-term test: any non-empty
input containing a prohibited keyword anywhere yields exactly
`(1, [["", input_str, 2]])` — discarding every term, prohibited or not —
and any non-empty input with no such substring yields one status-0 triple
per whitespace token of the lowercased input, with both the canonical and
the original entry equal to that (lowercased) token. -/
theorem validate_input_simple_mode (s : List Char) (hne : s ≠ []) :
    (containsProhibited s = true → validate_input s = (1, [⟨[], s, 2⟩])) ∧
    (containsProhibited s = false →
      validate_input s =
        ((pySplitWs (pyStrip (pyLower s))).length,
          (pySplitWs (pyStrip (pyLower s))).map fun t => ⟨t, t, 0⟩)) := by
  have hie : s.isEmpty = false := by
    cases s with
    | nil => exact absurd rfl hne
    | cons c t => rfl
  constructor
  · intro hcp
    have hstrip : (pyStrip s).isEmpty = false := by
      cases hps : pyStrip s with
      | nil => exact absurd hps (containsProhibited_strip_ne_nil hcp)
      | cons c t => rfl
    simp only [validate_input, hie, hstrip, hcp, Bool.or_self, if_true,
      if_false, Bool.false_eq_true]
  · intro hcp
    by_cases hstrip : pyStrip s = []
    · have h2 : pyStrip (pyLower s) = [] := by
        apply pyStrip_of_all_ws
        intro c hc
        obtain ⟨c₀, hc₀, rfl⟩ := List.mem_map.mp hc
        exact isWhitespace_toLower (all_ws_of_pyStrip_eq_nil hstrip c₀ hc₀)
      have hstripb : (pyStrip s).isEmpty = true := by rw [hstrip]; rfl
      rw [h2]
      simp only [validate_input, hie, hstripb, Bool.or_true, if_true]
      rfl
    · have hstripb : (pyStrip s).isEmpty = false := by
        cases hps : pyStrip s with
        | nil => exact absurd hps hstrip
        | cons c t => rfl
      simp only [validate_input, hie, hstripb, hcp, Bool.or_self, if_false,
        Bool.false_eq_true]

theorem validate_input_simple_mode_witness :
    validate_input "buy cocaine now".data =
      (1, [⟨[], "buy cocaine now".data, 2⟩]) ∧
    validate_input "Red Shoes".data =
      ((pySplitWs (pyStrip (pyLower "Red Shoes".data))).length,
        (pySplitWs (pyStrip (pyLower "Red Shoes".data))).map fun t => ⟨t, t, 0⟩) :=
  ⟨(validate_input_simple_mode "buy cocaine now".data (by decide)).1 (by decide),
   (validate_input_simple_mode "Red Shoes".data (by decide)).2 (by decide)⟩

/-! ### C7: embeddings of different dimensions are never blended -/

theorem groupRunsGo_flatten (d : Nat) (acc l : List ProductEmbedding) :
    (groupRunsGo d acc l).flatten = acc.reverse ++ l := by
  induction l generalizing d acc with
  | nil => simp [groupRunsGo]
  | cons e es ih =>
    rw [groupRunsGo]
    split
    · rw [ih]
      simp
    · rw [List.flatten_cons, ih]
      simp

theorem groupRuns_flatten (l : List ProductEmbedding) :
    (groupRuns l).flatten = l := by
  cases l with
  | nil => rfl
  | cons e es =>
    rw [groupRuns, groupRunsGo_flatten]
    rfl

theorem groupRunsGo_uniform (d : Nat) (acc l : List ProductEmbedding)
    (hacc : ∀ e ∈ acc, e.dimensions = d) :
    ∀ g ∈ groupRunsGo d acc l, ∃ k, ∀ e ∈ g, e.dimensions = k := by
  induction l generalizing d acc with
  | nil =>
    intro g hg
    simp only [groupRunsGo, List.mem_singleton] at hg
    subst hg
    exact ⟨d, fun e he => hacc e (List.mem_reverse.mp he)⟩
  | cons e es ih =>
    intro g hg
    rw [groupRunsGo] at hg
    split at hg
    · refine ih d (e :: acc) ?_ g hg
      intro x hx
      rcases List.mem_cons.mp hx with rfl | hx
      · assumption
      · exact hacc x hx
    · rcases List.mem_cons.mp hg with rfl | hg
      · exact ⟨d, fun x hx => hacc x (List.mem_reverse.mp hx)⟩
      · refine ih e.dimensions [e] ?_ g hg
        intro x hx
        rw [List.mem_singleton.mp hx]

theorem groupRuns_uniform (l : List ProductEmbedding) :
    ∀ g ∈ groupRuns l, ∀ e₁ ∈ g, ∀ e₂ ∈ g, e₁.dimensions = e₂.dimensions := by
  cases l with
  | nil =>
    intro g hg
    simp [groupRuns] at hg
  | cons e es =>
    intro g hg e₁ h₁ e₂ h₂
    obtain ⟨k, hk⟩ := groupRunsGo_uniform e.dimensions [e] es
      (by intro x hx; rw [List.mem_singleton.mp hx]) g hg
    rw [hk e₁ h₁, hk e₂ h₂]

/-- **C7.** Embeddings of differing dimension are never blended into one
similarity computation: (i) the dimension grouping in search loses and
duplicates nothing — the groups flatten back to the sorted embedding list;
(ii) every group handed to one `calculate_similarity_scores` call is of a
single dimension; (iii) the scored pairs of search are exactly the
concatenation of the independently scored groups, merged before the final
sort; (iv) in recommendation, the candidate set consists exactly of the
embeddings of *other* products with the *same* stored dimension as the
seed's embedding — all others are excluded. -/
theorem no_cross_dimension_blending :
    (∀ l : List ProductEmbedding, (groupRuns l).flatten = l) ∧
    (∀ l : List ProductEmbedding, ∀ g ∈ groupRuns l, ∀ e₁ ∈ g, ∀ e₂ ∈ g,
      e₁.dimensions = e₂.dimensions) ∧
    (∀ (cosSim : List ℚ → List ℚ → ℚ) (db : DB) (query : List Char)
        (min_price max_price : Option ℚ) (brand : Option (List Char))
        (min_rating : Option ℚ),
      allScoredPairs cosSim db query min_price max_price brand min_rating =
        (groupRuns (List.insertionSort dimLE
            (matchedEmbeddings db query min_price max_price brand min_rating))).flatMap
          fun g => calculate_similarity_scores cosSim query g
            (matchedProducts db query min_price max_price brand min_rating)) ∧
    (∀ (db : DB) (item : Nat) (cur : ProductEmbedding),
      (db.embeddings.find? fun e => e.product_id == item) = some cur →
      ∀ e, e ∈ otherEmbeddings db item cur ↔
        e ∈ db.embeddings ∧ e.product_id ≠ item ∧
          e.dimensions = cur.dimensions) := by
  refine ⟨groupRuns_flatten, groupRuns_uniform, fun _ _ _ _ _ _ _ => rfl,
    fun db item cur _ e => ?_⟩
  unfold otherEmbeddings
  rw [List.mem_filter]
  simp [bne_iff_ne, and_assoc]

theorem no_cross_dimension_blending_witness :
    (groupRuns [⟨1, [1], 1⟩, ⟨2, [1, 0], 2⟩]).flatten =
        [⟨1, [1], 1⟩, ⟨2, [1, 0], 2⟩] ∧
    (⟨1, [1], 1⟩ : ProductEmbedding).dimensions =
        (⟨1, [1], 1⟩ : ProductEmbedding).dimensions ∧
    allScoredPairs (fun _ _ => 0) ⟨[], [], []⟩ "q".data none none none none =
        (groupRuns (List.insertionSort dimLE
            (matchedEmbeddings ⟨[], [], []⟩ "q".data none none none none))).flatMap
          (fun g => calculate_similarity_scores (fun _ _ => 0) "q".data g
            (matchedProducts ⟨[], [], []⟩ "q".data none none none none)) ∧
    ((⟨2, [0, 1], 2⟩ : ProductEmbedding) ∈
        otherEmbeddings ⟨[], [⟨1, [1, 0], 2⟩, ⟨2, [0, 1], 2⟩, ⟨3, [1], 1⟩], []⟩
          1 ⟨1, [1, 0], 2⟩ ↔
      (⟨2, [0, 1], 2⟩ : ProductEmbedding) ∈
          (⟨[], [⟨1, [1, 0], 2⟩, ⟨2, [0, 1], 2⟩, ⟨3, [1], 1⟩], []⟩ : DB).embeddings ∧
        (⟨2, [0, 1], 2⟩ : ProductEmbedding).product_id ≠ 1 ∧
        (⟨2, [0, 1], 2⟩ : ProductEmbedding).dimensions =
          (⟨1, [1, 0], 2⟩ : ProductEmbedding).dimensions) :=
  ⟨no_cross_dimension_blending.1 [⟨1, [1], 1⟩, ⟨2, [1, 0], 2⟩],
   no_cross_dimension_blending.2.1 [⟨1, [1], 1⟩, ⟨2, [1, 0], 2⟩]
     [⟨1, [1], 1⟩] (by decide) ⟨1, [1], 1⟩ (by decide) ⟨1, [1], 1⟩ (by decide),
   no_cross_dimension_blending.2.2.1 (fun _ _ => 0) ⟨[], [], []⟩ "q".data
     none none none none,
   no_cross_dimension_blending.2.2.2
     ⟨[], [⟨1, [1, 0], 2⟩, ⟨2, [0, 1], 2⟩, ⟨3, [1], 1⟩], []⟩ 1 ⟨1, [1, 0], 2⟩
     (by decide) ⟨2, [0, 1], 2⟩⟩

/-! ### C9: neither pipeline returns the querying entity -/

theorem otherEmbeddings_pid_ne (db : DB) (item : Nat) (cur : ProductEmbedding) :
    ∀ pid ∈ (otherEmbeddings db item cur).map (·.product_id), pid ≠ item := by
  intro pid hpid
  obtain ⟨e, he, rfl⟩ := List.mem_map.mp hpid
  have hcond := (List.mem_filter.mp he).2
  rw [Bool.and_eq_true] at hcond
  exact bne_iff_ne.mp hcond.1

theorem getD_mem_of_lt {l : List Nat} {i : Nat} (h : i < l.length) :
    l.getD i 0 ∈ l := by
  rw [List.getD_eq_getElem?_getD, List.getElem?_eq_getElem h]
  exact List.get_mem l i h

/-- **C9.** The recommendation pipeline never returns its querying entity:
`suggest_products_for_item` never lists the seed item itself, and
`get_similar_users` never lists the target user. -/
theorem pipelines_exclude_self (cosSim : List ℚ → List ℚ → ℚ) (sqrtq : ℚ → ℚ)
    (db : DB) (item : Nat) (user_id : Option Nat) (uid : Nat) (msim : ℚ) :
    (∀ r ∈ suggest_products_for_item cosSim sqrtq db item user_id,
      r.product_id ≠ item) ∧
    (∀ us ∈ get_similar_users sqrtq db uid msim, us.1 ≠ uid) := by
  constructor
  · intro r hr
    unfold suggest_products_for_item at hr
    split at hr
    · simp at hr
    · rename_i cur _hfind
      simp only [] at hr
      by_cases hemp : (otherEmbeddings db item cur).isEmpty
      · rw [if_pos hemp] at hr
        simp at hr
      · rw [if_neg hemp] at hr
        obtain ⟨i, hi, hsome⟩ := List.mem_filterMap.mp hr
        obtain ⟨p, hfp, rfl⟩ := Option.map_eq_some'.mp hsome
        have hi' : i < ((otherEmbeddings db item cur).map (·.product_id)).length := by
          have h1 := List.take_subset 5 _ hi
          rw [List.mem_reverse, List.mem_insertionSort, List.mem_range] at h1
          rw [List.length_map]
          exact h1
        have hmem : ((otherEmbeddings db item cur).map (·.product_id)).getD i 0 ∈
            (otherEmbeddings db item cur).map (·.product_id) :=
          getD_mem_of_lt hi'
        have hne := otherEmbeddings_pid_ne db item cur _ hmem
        have hbeq := List.find?_some hfp
        simp only [] at hbeq
        have hpeq : p.product_id =
            ((otherEmbeddings db item cur).map (·.product_id)).getD i 0 :=
          beq_iff_eq.mp hbeq
        show (mkResult p _).product_id ≠ item
        rw [mkResult, hpeq]
        exact hne
  · intro us hus
    unfold get_similar_users at hus
    rw [List.mem_insertionSort] at hus
    obtain ⟨oid, _, hf⟩ := List.mem_filterMap.mp hus
    by_cases h : oid = uid
    · rw [if_neg (by simp [h])] at hf
      exact absurd hf (by simp)
    · rw [if_pos h] at hf
      simp only [] at hf
      split at hf
      · exact absurd hf (by simp)
      · split at hf
        · cases Option.some.inj hf
          exact h
        · exact absurd hf (by simp)

theorem pipelines_exclude_self_witness :
    ((⟨2, some "b".data, none, 3, 4, 0, 0⟩ : SearchResult) ∈
        suggest_products_for_item (fun _ _ => 0) (fun q => q) dbC9 1 none ∧
      (⟨2, some "b".data, none, 3, 4, 0, 0⟩ : SearchResult).product_id ≠ 1) ∧
    (((2 : Nat), (1 : ℚ)) ∈ get_similar_users (fun q => q) dbC9 1 0.2 ∧
      ((2 : Nat), (1 : ℚ)).1 ≠ 1) := by
  have hs : suggest_products_for_item (fun _ _ => 0) (fun q => q) dbC9 1 none =
      [⟨2, some "b".data, none, 3, 4, 0, 0⟩] := by
    norm_num [suggest_products_for_item, dbC9, otherEmbeddings, optTruthy,
      List.find?, List.filter_cons, List.filter_nil, List.insertionSort,
      List.orderedInsert, List.filterMap_cons, List.filterMap_nil,
      List.getD, mkResult, round3]
  have hu : (dbC9.activities.map (·.user_id)).eraseDups = [1, 2] := by decide
  have hk1 : activityKeys dbC9 1 30 = [5] := by decide
  have hk2 : activityKeys dbC9 2 30 = [5] := by decide
  have hv1 : get_user_activity_vector dbC9 1 30 5 = 1 := by
    norm_num [get_user_activity_vector, dbC9, optTruthy, activityContribution,
      activityBaseWeight, timeDecay, List.filter_cons, List.filter_nil]
  have hv2 : get_user_activity_vector dbC9 2 30 5 = 1 := by
    norm_num [get_user_activity_vector, dbC9, optTruthy, activityContribution,
      activityBaseWeight, timeDecay, List.filter_cons, List.filter_nil]
  have hg : get_similar_users (fun q => q) dbC9 1 0.2 = [(2, 1)] := by
    simp only [get_similar_users, hu, hk1, hk2]
    norm_num [hu, hk1, hk2, hv1, hv2, List.filterMap_cons, List.filterMap_nil,
      List.filter_cons, List.filter_nil, List.insertionSort,
      List.orderedInsert]
  have hm1 : (⟨2, some "b".data, none, 3, 4, 0, 0⟩ : SearchResult) ∈
      suggest_products_for_item (fun _ _ => 0) (fun q => q) dbC9 1 none := by
    rw [hs]
    exact List.mem_singleton.mpr rfl
  have hm2 : ((2 : Nat), (1 : ℚ)) ∈ get_similar_users (fun q => q) dbC9 1 0.2 := by
    rw [hg]
    exact List.mem_singleton.mpr rfl
  exact ⟨⟨hm1,
    (pipelines_exclude_self (fun _ _ => 0) (fun q => q) dbC9 1 none 1 0.2).1 _ hm1⟩,
    ⟨hm2,
    (pipelines_exclude_self (fun _ _ => 0) (fun q => q) dbC9 1 none 1 0.2).2 _ hm2⟩⟩

/-! ### C2: search returns at most 15 results in non-increasing score order -/

theorem pairwise_of_forall_rel {α : Type} {r : α → α → Prop}
    (h : ∀ a b, r a b) : ∀ l : List α, l.Pairwise r := by
  intro l
  induction l with
  | nil => exact List.Pairwise.nil
  | cons a t ih => exact List.Pairwise.cons (fun b _ => h a b) ih

theorem round3_mono {a b : ℚ} (h : a ≤ b) : round3 a ≤ round3 b := by
  unfold round3
  have hr : round (a * 1000) ≤ round (b * 1000) := by
    rw [round_eq, round_eq]
    exact Int.floor_mono (by linarith)
  have hc : ((round (a * 1000) : ℤ) : ℚ) ≤ ((round (b * 1000) : ℤ) : ℚ) :=
    Int.cast_le.mpr hr
  gcongr

theorem round3_one : round3 1 = 1 := by
  norm_num [round3]

theorem filteredProducts_subset (db : DB) (min_price max_price : Option ℚ)
    (brand : Option (List Char)) (min_rating : Option ℚ) :
    filteredProducts db min_price max_price brand min_rating ⊆ db.products := by
  unfold filteredProducts
  cases min_price <;> cases max_price <;> cases brand <;> cases min_rating <;>
    intro p hp <;>
    (try simp only [List.mem_filter] at hp) <;>
    (try split_ifs at hp) <;>
    (try simp only [List.mem_filter] at hp) <;>
    tauto

theorem matchedProducts_subset (db : DB) (query : List Char)
    (min_price max_price : Option ℚ) (brand : Option (List Char))
    (min_rating : Option ℚ) :
    matchedProducts db query min_price max_price brand min_rating ⊆ db.products := by
  intro p hp
  exact filteredProducts_subset db min_price max_price brand min_rating
    (List.mem_of_mem_filter hp)

theorem mem_allScoredPairs {cosSim : List ℚ → List ℚ → ℚ} {db : DB}
    {query : List Char} {min_price max_price : Option ℚ}
    {brand : Option (List Char)} {min_rating : Option ℚ} {pr : Product × ℚ}
    (h : pr ∈ allScoredPairs cosSim db query min_price max_price brand min_rating) :
    pr.1 ∈ matchedProducts db query min_price max_price brand min_rating := by
  unfold allScoredPairs at h
  rw [List.mem_flatMap] at h
  obtain ⟨g, hg, hpr⟩ := h
  unfold calculate_similarity_scores at hpr
  cases g with
  | nil => simp at hpr
  | cons e0 rest =>
    obtain ⟨es, hes, hsome⟩ := List.mem_filterMap.mp hpr
    obtain ⟨p, hfp, rfl⟩ := Option.map_eq_some'.mp hsome
    exact List.mem_of_find?_eq_some hfp

theorem rankedResults_sorted (pairs : List (Product × ℚ))
    (hp : pairs.Pairwise descBySnd) :
    (rankedResults pairs).Pairwise
      (fun a b : SearchResult => b.similarity_score ≤ a.similarity_score) := by
  unfold rankedResults
  rw [List.pairwise_map]
  exact (List.Pairwise.sublist (List.take_sublist 15 pairs) hp).imp
    fun hab => round3_mono hab

/-- **C2.** For every query and every combination of the optional filters,
`search_products` returns at most 15 results, in non-increasing order of
`similarity_score`; every returned entry carries the id, title, category,
price, was_price and discount of a catalog product, and its score is a
value rounded to 3 decimals. -/
theorem search_returns_top15_sorted (cosSim : List ℚ → List ℚ → ℚ) (db : DB)
    (query : List Char) (min_price max_price : Option ℚ)
    (brand : Option (List Char)) (min_rating : Option ℚ) :
    (search_products cosSim db query min_price max_price brand min_rating).length ≤ 15 ∧
    (search_products cosSim db query min_price max_price brand min_rating).Pairwise
      (fun a b : SearchResult => b.similarity_score ≤ a.similarity_score) ∧
    ∀ r ∈ search_products cosSim db query min_price max_price brand min_rating,
      (∃ p ∈ db.products, r.product_id = p.product_id ∧ r.title = p.title ∧
        r.category = p.category ∧ r.price = p.price ∧
        r.was_price = p.was_price ∧ r.discount = p.discount) ∧
      ∃ s : ℚ, r.similarity_score = round3 s := by
  unfold search_products
  split_ifs with h1 h2 h3
  · exact ⟨by simp, by simp, by simp⟩
  · exact ⟨by simp, by simp, by simp⟩
  · refine ⟨?_, ?_, ?_⟩
    · rw [basicResults, List.length_map]
      exact List.length_take_le 15 _
    · rw [basicResults]
      rw [List.pairwise_map]
      exact pairwise_of_forall_rel (fun a b => le_refl (1 : ℚ)) _
    · intro r hr
      rw [basicResults] at hr
      obtain ⟨p, hp, rfl⟩ := List.mem_map.mp hr
      have hpdb : p ∈ db.products :=
        matchedProducts_subset db query min_price max_price brand min_rating
          (List.take_subset 15 _ hp)
      exact ⟨⟨p, hpdb, rfl, rfl, rfl, rfl, rfl, rfl⟩, 1, round3_one.symm⟩
  · refine ⟨?_, ?_, ?_⟩
    · rw [rankedResults, List.length_map]
      exact List.length_take_le 15 _
    · exact rankedResults_sorted _ (List.sorted_insertionSort descBySnd _)
    · intro r hr
      rw [rankedResults] at hr
      obtain ⟨pr, hpr, rfl⟩ := List.mem_map.mp hr
      have hmem : pr ∈ sortedScoredPairs cosSim db query min_price max_price
          brand min_rating := List.take_subset 15 _ hpr
      rw [sortedScoredPairs, List.mem_insertionSort] at hmem
      have hpdb : pr.1 ∈ db.products :=
        matchedProducts_subset db query min_price max_price brand min_rating
          (mem_allScoredPairs hmem)
      exact ⟨⟨pr.1, hpdb, rfl, rfl, rfl, rfl, rfl, rfl⟩, pr.2, rfl⟩

theorem search_returns_top15_sorted_witness :
    (search_products (fun _ _ => 0)
        ⟨[⟨1, some "red shoes".data, none, none, none, none, 1, 1, 0, 500, 5/2⟩],
          [⟨1, [1], 1⟩], []⟩ "shoes".data none none none none).length ≤ 15 ∧
    (search_products (fun _ _ => 0)
        ⟨[⟨1, some "red shoes".data, none, none, none, none, 1, 1, 0, 500, 5/2⟩],
          [⟨1, [1], 1⟩], []⟩ "shoes".data none none none none).Pairwise
      (fun a b : SearchResult => b.similarity_score ≤ a.similarity_score) ∧
    ∀ r ∈ search_products (fun _ _ => 0)
        ⟨[⟨1, some "red shoes".data, none, none, none, none, 1, 1, 0, 500, 5/2⟩],
          [⟨1, [1], 1⟩], []⟩ "shoes".data none none none none,
      (∃ p ∈ (⟨[⟨1, some "red shoes".data, none, none, none, none, 1, 1, 0, 500, 5/2⟩],
            [⟨1, [1], 1⟩], []⟩ : DB).products,
        r.product_id = p.product_id ∧ r.title = p.title ∧
        r.category = p.category ∧ r.price = p.price ∧
        r.was_price = p.was_price ∧ r.discount = p.discount) ∧
      ∃ s : ℚ, r.similarity_score = round3 s :=
  search_returns_top15_sorted (fun _ _ => 0)
    ⟨[⟨1, some "red shoes".data, none, none, none, none, 1, 1, 0, 500, 5/2⟩],
      [⟨1, [1], 1⟩], []⟩ "shoes".data none none none none

end AISC
